import Mathlib

/-!
Shallow embedding of the decision core of the KCL1104/quant trading bot
(src/core/risk_manager.py, src/core/position_manager.py,
src/core/indicators.py, src/core/market_regime.py,
src/strategies/mean_reversion_v2.py, src/config/settings.py).

Modelling conventions:
* Python floats are modelled as `Option ℚ`: `some q` is an ordinary value,
  `none` is IEEE NaN.  Arithmetic propagates `none`; comparisons with `none`
  are `false` except `!=`, which is `true` on NaN, exactly as in Python/numpy.
  Where a quantity is provably never NaN in the source (risk-manager state,
  position sizing inputs) plain `ℚ` is used.
* Wall-clock timestamps are modelled as abstract rationals.  The UTC
  day/week boundary resets of the risk manager are modelled in the state
  where no boundary is crossed between the operations under study, which is
  the scope of every claim about the risk manager here.
* Calls into the external TA-Lib C library are modelled as an explicit
  oracle record `TALib` passed to the indicator engine; the repository code
  downstream of those calls is embedded faithfully.
* Strings are carried but numeric string formatting is out of the model;
  fixed marker strings are used instead of interpolated text.
-/

/-- A Python/numpy float: `some q` is a real value, `none` is NaN. -/
abbrev FQ := Option ℚ

/-- Float addition; NaN propagates. -/
def fadd : FQ → FQ → FQ
  | some a, some b => some (a + b)
  | _, _ => none

/-- Float subtraction; NaN propagates. -/
def fsub : FQ → FQ → FQ
  | some a, some b => some (a - b)
  | _, _ => none

/-- Float multiplication; NaN propagates. -/
def fmul : FQ → FQ → FQ
  | some a, some b => some (a * b)
  | _, _ => none

/-- Float division; NaN propagates.  Division by exact zero is also mapped
to `none`; every division in the embedded code is guarded so this case is
unreachable on the executions the claims are about. -/
def fdiv : FQ → FQ → FQ
  | some a, some b => if b = 0 then none else some (a / b)
  | _, _ => none

/-- Float `<`: false whenever either side is NaN (IEEE semantics). -/
def flt : FQ → FQ → Bool
  | some a, some b => decide (a < b)
  | _, _ => false

/-- Float `<=`: false whenever either side is NaN. -/
def fle : FQ → FQ → Bool
  | some a, some b => decide (a ≤ b)
  | _, _ => false

/-- Float `>`. -/
def fgt (a b : FQ) : Bool := flt b a

/-- Float `>=`. -/
def fge (a b : FQ) : Bool := fle b a

/-- Float `!=`: true whenever either side is NaN (IEEE semantics). -/
def fne : FQ → FQ → Bool
  | some a, some b => decide (a ≠ b)
  | _, _ => true

/-- Python builtin `min(a, b)`: returns `b` if `b < a` else `a`
(so `min(x, nan) = x`). -/
def fminPy (a b : FQ) : FQ := if flt b a then b else a

/-- Python builtin `max(a, b)`: returns `b` if `b > a` else `a`
(so `max(x, nan) = x`). -/
def fmaxPy (a b : FQ) : FQ := if fgt b a then b else a

/-- Python builtin `max(a, b)` on definite values: `b` if `a < b` else `a`
(kernel-reducible, unlike Mathlib `max` on `ℚ`). -/
def qmax (a b : ℚ) : ℚ := if a < b then b else a

/-- Python builtin `min(a, b)` on definite values: `b` if `b < a` else `a`. -/
def qmin (a b : ℚ) : ℚ := if b < a then b else a

/-! ## Configuration (src/config/settings.py)

Each pydantic settings class is a structure; the class defaults become the
fields of `defaultSettings`.  Only numeric trading parameters are embedded;
API credential strings and the market-list parser are outside the decision
core. -/

/-- SupertrendConfig. -/
structure SupertrendConfig where
  period : ℕ
  multiplier : ℚ
  deriving Repr, DecidableEq

/-- EMAConfig. -/
structure EMAConfig where
  fast_period : ℕ
  slow_period : ℕ
  deriving Repr, DecidableEq

/-- RSIConfig. -/
structure RSIConfig where
  period : ℕ
  overbought : ℚ
  oversold : ℚ
  deriving Repr, DecidableEq

/-- BollingerConfig. -/
structure BollingerConfig where
  period : ℕ
  std_dev : ℚ
  deriving Repr, DecidableEq

/-- ADXConfig. -/
structure ADXConfig where
  period : ℕ
  threshold : ℚ
  deriving Repr, DecidableEq

/-- ATRConfig. -/
structure ATRConfig where
  period : ℕ
  trending_threshold : ℚ
  ranging_threshold : ℚ
  deriving Repr, DecidableEq

/-- LeverageConfig. -/
structure LeverageConfig where
  base_leverage : ℚ
  max_leverage : ℚ
  min_leverage : ℚ
  deriving Repr, DecidableEq

/-- RiskConfig. -/
structure RiskConfig where
  risk_per_trade : ℚ
  max_daily_loss : ℚ
  max_drawdown : ℚ
  max_consecutive_losses : ℕ
  max_position_ratio : ℚ
  win_rate_boost_threshold : ℚ
  win_rate_reduce_threshold : ℚ
  win_rate_boost_multiplier : ℚ
  win_rate_reduce_multiplier : ℚ
  consecutive_loss_threshold_2 : ℕ
  consecutive_loss_threshold_3 : ℕ
  consecutive_loss_multiplier : ℚ
  consecutive_win_threshold : ℕ
  consecutive_win_multiplier : ℚ
  weekly_profit_protection : ℚ
  deriving Repr, DecidableEq

/-- MomentumConfig. -/
structure MomentumConfig where
  strength_lookback : ℕ
  min_strength : ℚ
  strong_strength : ℚ
  risk_reward_ratio : ℚ
  strong_position_multiplier : ℚ
  weak_position_multiplier : ℚ
  deriving Repr, DecidableEq

/-- TradingConfig (numeric trading parameters only). -/
structure TradingConfig where
  min_trade_amount : ℚ
  slippage_tolerance : ℚ
  order_timeout : ℕ
  cooldown_after_loss : ℚ
  cooldown_after_consecutive_loss : ℚ
  deriving Repr, DecidableEq

/-- Settings: the bundle of sub-configurations used by the decision core. -/
structure Settings where
  supertrend : SupertrendConfig
  ema : EMAConfig
  rsi : RSIConfig
  bollinger : BollingerConfig
  adx : ADXConfig
  atr : ATRConfig
  leverage : LeverageConfig
  risk : RiskConfig
  momentum : MomentumConfig
  trading : TradingConfig
  deriving Repr, DecidableEq

/-- The default values of src/config/settings.py. -/
def defaultSettings : Settings where
  supertrend := ⟨10, 3⟩
  ema := ⟨20, 50⟩
  rsi := ⟨14, 70, 30⟩
  bollinger := ⟨20, 2⟩
  adx := ⟨14, 25⟩
  atr := ⟨14, 1/50, 3/200⟩
  leverage := ⟨2, 5, 1⟩
  risk :=
    { risk_per_trade := 1/50
      max_daily_loss := 1/20
      max_drawdown := 3/20
      max_consecutive_losses := 5
      max_position_ratio := 1/2
      win_rate_boost_threshold := 3/5
      win_rate_reduce_threshold := 2/5
      win_rate_boost_multiplier := 6/5
      win_rate_reduce_multiplier := 7/10
      consecutive_loss_threshold_2 := 2
      consecutive_loss_threshold_3 := 3
      consecutive_loss_multiplier := 4/5
      consecutive_win_threshold := 3
      consecutive_win_multiplier := 11/10
      weekly_profit_protection := 1/10 }
  momentum := ⟨10, 2/5, 7/10, 2, 6/5, 4/5⟩
  trading := ⟨10, 1/200, 30, 300, 1800⟩

/-! ## Risk manager (src/core/risk_manager.py)

The `RiskManager` object state.  The `day_start`/`week_start` clock fields
and `_check_reset_periods` are modelled by studying executions that stay
inside one UTC day/week period, which is the stated scope of the claims
(daily/weekly accumulators are then never reset between operations). -/

/-- TradeRecord dataclass. -/
structure TradeRecord where
  timestamp : ℚ
  pnl : ℚ
  pnl_percent : ℚ
  is_win : Bool
  strategy : String
  deriving Repr, DecidableEq

/-- Mutable state of a RiskManager instance. -/
structure RMState where
  initial_balance : ℚ
  current_balance : ℚ
  peak_balance : ℚ
  trade_history : List TradeRecord
  consecutive_wins : ℕ
  consecutive_losses : ℕ
  daily_pnl : ℚ
  weekly_pnl : ℚ
  daily_trades : ℕ
  weekly_trades : ℕ
  last_trade_time : Option ℚ
  cooldown_until : Option ℚ
  max_drawdown : ℚ
  deriving Repr, DecidableEq

/-- RiskManager.__init__(initial_balance). -/
def rmInit (initial_balance : ℚ) : RMState where
  initial_balance := initial_balance
  current_balance := initial_balance
  peak_balance := initial_balance
  trade_history := []
  consecutive_wins := 0
  consecutive_losses := 0
  daily_pnl := 0
  weekly_pnl := 0
  daily_trades := 0
  weekly_trades := 0
  last_trade_time := none
  cooldown_until := none
  max_drawdown := 0

/-- The last `n` elements of a list (Python slice `l[-n:]` for `n ≥ 1`). -/
def lastN (n : ℕ) (l : List α) : List α := l.drop (l.length - n)

/-- Append to a `deque(maxlen = n)`: push and keep the newest `n` items. -/
def pushCap (n : ℕ) (l : List α) (a : α) : List α :=
  (l ++ [a]).drop (l.length + 1 - n)

/-- RiskManager.get_win_rate (lookback defaulting to 20): fraction of wins
among the most recent `lookback` recorded trades, 0.5 when none. -/
def get_win_rate (s : RMState) : ℚ :=
  if s.trade_history.length = 0 then 1/2
  else
    let recent := lastN 20 s.trade_history
    (recent.countP (·.is_win) : ℚ) / (recent.length : ℚ)

/-- RiskManager.get_current_drawdown. -/
def get_current_drawdown (s : RMState) : ℚ :=
  if s.peak_balance ≤ 0 then 0
  else qmax 0 ((s.peak_balance - s.current_balance) / s.peak_balance)

/-- RiskManager.update_balance. -/
def update_balance (s : RMState) (new_balance : ℚ) : RMState :=
  { s with
    current_balance := new_balance
    peak_balance := if new_balance > s.peak_balance then new_balance else s.peak_balance }

/-- RiskManager._set_cooldown_if_needed, run after the streak counters were
updated (as in `record_trade`); arms a cooldown only on a strict loss. -/
def set_cooldown_if_needed (cfg : Settings) (now : ℚ) (s : RMState) (pnl : ℚ) : RMState :=
  if pnl < 0 then
    let seconds :=
      if s.consecutive_losses ≥ cfg.risk.consecutive_loss_threshold_3 then
        cfg.trading.cooldown_after_consecutive_loss
      else cfg.trading.cooldown_after_loss
    { s with cooldown_until := some (now + seconds) }
  else s

/-- RiskManager.record_trade(pnl, strategy), inside one day/week period. -/
def record_trade (cfg : Settings) (now : ℚ) (s : RMState) (pnl : ℚ)
    (strategy : String) : RMState :=
  let pnl_percent := if s.current_balance > 0 then pnl / s.current_balance else 0
  let is_win := pnl > 0
  let rec0 : TradeRecord := ⟨now, pnl, pnl_percent, is_win, strategy⟩
  let s1 := { s with trade_history := pushCap 100 s.trade_history rec0 }
  let s2 :=
    if is_win then
      { s1 with consecutive_wins := s1.consecutive_wins + 1, consecutive_losses := 0 }
    else
      { s1 with consecutive_losses := s1.consecutive_losses + 1, consecutive_wins := 0 }
  let s3 := { s2 with
    daily_pnl := s2.daily_pnl + pnl_percent
    weekly_pnl := s2.weekly_pnl + pnl_percent
    daily_trades := s2.daily_trades + 1
    weekly_trades := s2.weekly_trades + 1 }
  let s4 := update_balance s3 (s3.current_balance + pnl)
  let dd := get_current_drawdown s4
  let s5 := if dd > s4.max_drawdown then { s4 with max_drawdown := dd } else s4
  let s6 := set_cooldown_if_needed cfg now s5 pnl
  { s6 with last_trade_time := some now }

/-- Step 1 of RiskManager.calculate_leverage: base leverage with the
win-rate adjustment. -/
def rm_lev1 (cfg : Settings) (s : RMState) : ℚ :=
  let wr := get_win_rate s
  if wr > cfg.risk.win_rate_boost_threshold then
    cfg.leverage.base_leverage * cfg.risk.win_rate_boost_multiplier
  else if wr < cfg.risk.win_rate_reduce_threshold then
    cfg.leverage.base_leverage * cfg.risk.win_rate_reduce_multiplier
  else cfg.leverage.base_leverage

/-- Step 2 (non-override half): the lower consecutive-loss haircut. -/
def rm_lev2 (cfg : Settings) (s : RMState) : ℚ :=
  if s.consecutive_losses ≥ cfg.risk.consecutive_loss_threshold_2 then
    rm_lev1 cfg s * cfg.risk.consecutive_loss_multiplier
  else rm_lev1 cfg s

/-- Step 3: consecutive-win bonus. -/
def rm_lev3 (cfg : Settings) (s : RMState) : ℚ :=
  if s.consecutive_wins ≥ cfg.risk.consecutive_win_threshold then
    rm_lev2 cfg s * cfg.risk.consecutive_win_multiplier
  else rm_lev2 cfg s

/-- Step 4 (non-halt half): half leverage past half the daily-loss limit. -/
def rm_lev4 (cfg : Settings) (s : RMState) : ℚ :=
  if s.daily_pnl < -cfg.risk.max_daily_loss * (1/2) then rm_lev3 cfg s * (1/2)
  else rm_lev3 cfg s

/-- Step 5 (non-halt half): 0.6× leverage past 70% of the drawdown limit. -/
def rm_lev5 (cfg : Settings) (s : RMState) : ℚ :=
  if get_current_drawdown s > cfg.risk.max_drawdown * (7/10) then rm_lev4 cfg s * (3/5)
  else rm_lev4 cfg s

/-- Step 6: weekly-profit protection caps leverage at the base value. -/
def rm_lev6 (cfg : Settings) (s : RMState) : ℚ :=
  if s.weekly_pnl > cfg.risk.weekly_profit_protection then
    qmin (rm_lev5 cfg s) cfg.leverage.base_leverage
  else rm_lev5 cfg s

/-- RiskManager.calculate_leverage, inside one day/week period: the ordered
pipeline, with the three overrides (consecutive-loss floor, daily-loss halt,
drawdown halt) as early returns exactly as in the source, and the final
clamp to the configured range. -/
def calculate_leverage (cfg : Settings) (s : RMState) : ℚ :=
  -- Step 2: consecutive-loss protection (highest priority, early return)
  if s.consecutive_losses ≥ cfg.risk.consecutive_loss_threshold_3 then
    cfg.leverage.min_leverage
  -- Step 4: daily-loss halt
  else if s.daily_pnl < -cfg.risk.max_daily_loss then 0
  -- Step 5: drawdown halt
  else if get_current_drawdown s > cfg.risk.max_drawdown then 0
  -- Step 7: clamp to configured range
  else qmax cfg.leverage.min_leverage (qmin (rm_lev6 cfg s) cfg.leverage.max_leverage)

/-- Fold `record_trade` over a list of P&L amounts (same instant, one
strategy label), newest last. -/
def record_trades (cfg : Settings) (now : ℚ) (strategy : String)
    (s : RMState) (pnls : List ℚ) : RMState :=
  pnls.foldl (fun st p => record_trade cfg now st p strategy) s

/-! ## Position manager (src/core/position_manager.py) -/

/-- SignalType enum (the NONE member is never produced by the embedded
strategies and is omitted). -/
inductive SignalType where
  | long
  | short
  deriving Repr, DecidableEq

/-- StrategyType enum. -/
inductive StrategyType where
  | momentum
  | mean_reversion
  deriving Repr, DecidableEq

/-- PositionSize dataclass. -/
structure PositionSize where
  size : ℚ
  base_amount : ℚ
  leverage : ℚ
  risk_amount : ℚ
  stop_distance : ℚ
  stop_distance_percent : ℚ
  deriving Repr, DecidableEq

/-- StopLossTarget dataclass (float fields, NaN-capable). -/
structure StopLossTarget where
  stop_loss : FQ
  take_profit : FQ
  risk_reward_ratio : FQ
  stop_distance_percent : FQ
  profit_distance_percent : FQ
  deriving Repr, DecidableEq

/-- Step 1 of PositionManager.calculate_position_size: the risk budget. -/
def pm_risk_amount (cfg : Settings) (balance : ℚ) : ℚ :=
  balance * cfg.risk.risk_per_trade

/-- Step 2: signed stop distance, then absolute value. -/
def pm_stop_distance (signal_type : SignalType) (current_price stop_loss_price : ℚ) : ℚ :=
  let signed :=
    match signal_type with
    | .long => current_price - stop_loss_price
    | .short => stop_loss_price - current_price
  |signed|

/-- Stop distance as a fraction of the entry price. -/
def pm_stop_distance_percent (signal_type : SignalType)
    (current_price stop_loss_price : ℚ) : ℚ :=
  if current_price > 0 then
    pm_stop_distance signal_type current_price stop_loss_price / current_price
  else 0

/-- Step 4: base position value = risk amount / stop-distance fraction. -/
def pm_base_position (cfg : Settings) (balance current_price stop_loss_price : ℚ)
    (signal_type : SignalType) : ℚ :=
  pm_risk_amount cfg balance / pm_stop_distance_percent signal_type current_price stop_loss_price

/-- Step 5: strength adjustment of the base position. -/
def pm_adjusted_position (cfg : Settings) (balance current_price stop_loss_price : ℚ)
    (signal_type : SignalType) (strength : ℚ) : ℚ :=
  let base := pm_base_position cfg balance current_price stop_loss_price signal_type
  if strength > cfg.momentum.strong_strength then base * cfg.momentum.strong_position_multiplier
  else if strength < cfg.momentum.min_strength then base * cfg.momentum.weak_position_multiplier
  else base

/-- Step 6: leveraged notional before the max-position clamp. -/
def pm_leveraged_position (cfg : Settings) (balance leverage current_price stop_loss_price : ℚ)
    (signal_type : SignalType) (strength : ℚ) : ℚ :=
  pm_adjusted_position cfg balance current_price stop_loss_price signal_type strength * leverage

/-- PositionManager.calculate_position_size. -/
def calculate_position_size (cfg : Settings) (balance leverage current_price stop_loss_price : ℚ)
    (signal_type : SignalType) (strength : ℚ) : PositionSize :=
  let min_stop_distance_percent : ℚ := 3/1000
  let risk_amount := pm_risk_amount cfg balance
  let stop_distance := pm_stop_distance signal_type current_price stop_loss_price
  let stop_distance_percent := pm_stop_distance_percent signal_type current_price stop_loss_price
  -- Step 3: reject stops that are too tight
  if stop_distance_percent < min_stop_distance_percent then
    ⟨0, 0, leverage, risk_amount, stop_distance, stop_distance_percent⟩
  else
    let leveraged_position :=
      pm_leveraged_position cfg balance leverage current_price stop_loss_price signal_type strength
    -- Step 7: clamp to the configured fraction of balance × leverage
    let max_position := balance * leverage * cfg.risk.max_position_ratio
    let final0 := qmin leveraged_position max_position
    let final_position := if final0 < cfg.trading.min_trade_amount then 0 else final0
    let base_amount := if current_price > 0 then final_position / current_price else 0
    ⟨final_position, base_amount, leverage, risk_amount, stop_distance, stop_distance_percent⟩

/-! ## Market regime detector (src/core/market_regime.py) -/

/-- MarketRegime enum. -/
inductive MarketRegime where
  | trending
  | ranging
  | unknown
  deriving Repr, DecidableEq

/-- MarketState dataclass. -/
structure MarketState where
  regime : MarketRegime
  adx_value : ℚ
  atr_percent : ℚ
  bb_width : FQ
  bb_position : FQ
  confidence : FQ
  description : String
  deriving Repr, DecidableEq

/-- Mutable per-symbol state of a MarketRegimeDetector. -/
structure DetectorState where
  last_regime : MarketRegime
  regime_count : ℕ
  deriving Repr, DecidableEq

/-- MarketRegimeDetector._check_trending: ADX or ATR alone suffices. -/
def check_trending (cfg : Settings) (adx atr_percent : ℚ) : Bool :=
  adx > cfg.adx.threshold ∨ atr_percent > cfg.atr.trending_threshold

/-- MarketRegimeDetector._check_ranging: only a low ADX is gating; the ATR
and band-position inputs are accepted but deliberately not used. -/
def check_ranging (cfg : Settings) (adx atr_percent : ℚ) (bb_position : FQ) : Bool :=
  let _low_atr := atr_percent < cfg.atr.ranging_threshold * (6/5)
  let _pos := bb_position
  adx < cfg.adx.threshold

/-- MarketRegimeDetector._calculate_trending_confidence. -/
def trending_confidence (cfg : Settings) (adx atr_percent : ℚ) : ℚ :=
  let adx_score := qmin ((adx - cfg.adx.threshold) / (50 - cfg.adx.threshold)) 1
  let atr_score :=
    qmin ((atr_percent - cfg.atr.trending_threshold) / (1/20 - cfg.atr.trending_threshold)) 1
  qmax 0 (qmin 1 (adx_score * (3/5) + atr_score * (2/5)))

/-- Float absolute value; NaN propagates. -/
def fabs : FQ → FQ
  | some a => some |a|
  | none => none

/-- MarketRegimeDetector._calculate_ranging_confidence (the band position
may be NaN, so this is float arithmetic). -/
def ranging_confidence (cfg : Settings) (adx : ℚ) (bb_position : FQ) : FQ :=
  let adx_score : ℚ := qmax 0 ((cfg.adx.threshold - adx) / cfg.adx.threshold)
  let position_score := fsub (some 1) (fmul (fabs (fsub bb_position (some (1/2)))) (some 2))
  let confidence := fadd (some (adx_score * (1/2))) (fmul position_score (some (1/2)))
  fmaxPy (some 0) (fminPy (some 1) confidence)

/-! ## Indicator engine (src/core/indicators.py)

The engine consumes OHLCV bars on two timeframes.  Library-grade indicators
(ATR, EMA, RSI, BBANDS, ADX, DI) are calls into the external TA-Lib C
library, modelled as an oracle record of functions; all repository code
around those calls is embedded.  Array cells are floats (`FQ`). -/

/-- TrendDirection enum (NEUTRAL is never produced by the embedded code). -/
inductive TrendDirection where
  | up
  | down
  deriving Repr, DecidableEq

/-- SupertrendResult dataclass. -/
structure SupertrendResult where
  value : FQ
  direction : TrendDirection
  upper_band : FQ
  lower_band : FQ
  deriving Repr, DecidableEq

/-- BollingerResult dataclass. -/
structure BollingerResult where
  upper : FQ
  middle : FQ
  lower : FQ
  width : FQ
  position : FQ
  deriving Repr, DecidableEq

/-- IndicatorValues dataclass.  Fields produced through `_safe_get_last`
are plain `ℚ` because that helper always returns a non-NaN value when its
default is non-NaN, which is the case at every call site. -/
structure IndicatorValues where
  supertrend_fast : SupertrendResult
  supertrend_slow : SupertrendResult
  ema_fast : ℚ
  ema_slow : ℚ
  rsi : ℚ
  bollinger : BollingerResult
  adx : ℚ
  plus_di : ℚ
  minus_di : ℚ
  atr : ℚ
  atr_percent : ℚ
  current_price : ℚ
  high : FQ
  low : FQ
  deriving Repr, DecidableEq

/-- One OHLCV bar restricted to the columns the engine reads. -/
structure FBar where
  high : FQ
  low : FQ
  close : FQ
  deriving Repr, DecidableEq

/-- The external TA-Lib library as an oracle: each field has the calling
shape of the corresponding talib function (arrays in, array out). -/
structure TALib where
  ATR : List FQ → List FQ → List FQ → ℕ → List FQ
  EMA : List FQ → ℕ → List FQ
  RSI : List FQ → ℕ → List FQ
  BBANDS : List FQ → ℕ → ℚ → List FQ × List FQ × List FQ
  ADX : List FQ → List FQ → List FQ → ℕ → List FQ
  PLUS_DI : List FQ → List FQ → List FQ → ℕ → List FQ
  MINUS_DI : List FQ → List FQ → List FQ → ℕ → List FQ

/-- One row of the four arrays built by the Supertrend loop:
`(supertrend[i], direction[i], final_upper[i], final_lower[i])`. -/
structure STRow where
  supertrend : FQ
  direction : Int
  finalUpper : FQ
  finalLower : FQ
  deriving Repr, DecidableEq

/-- Row `period - 1` of the Supertrend arrays (the loop seed): bands start
at the candidates and the trend defaults to up. -/
def stInit (ub lb : ℕ → FQ) (period : ℕ) : STRow :=
  ⟨lb (period - 1), 1, ub (period - 1), lb (period - 1)⟩

/-- The body of the Supertrend loop at bar `i ≥ period`, mapping row
`i - 1` to row `i`.  `ub`/`lb` are the candidate bands `hl2 ± mult · atr`. -/
def stStep (ub lb close : ℕ → FQ) (i : ℕ) (s : STRow) : STRow :=
  let fu := if flt (ub i) s.finalUpper || fgt (close (i - 1)) s.finalUpper then ub i
            else s.finalUpper
  let fl := if fgt (lb i) s.finalLower || flt (close (i - 1)) s.finalLower then lb i
            else s.finalLower
  if s.direction = 1 then
    if flt (close i) fl then ⟨fu, -1, fu, fl⟩ else ⟨fl, 1, fu, fl⟩
  else
    if fgt (close i) fu then ⟨fl, 1, fu, fl⟩ else ⟨fu, -1, fu, fl⟩

/-- Rows of the Supertrend arrays from the seed on: `stRows … k` is row
`period - 1 + k`. -/
def stRows (ub lb close : ℕ → FQ) (period : ℕ) : ℕ → STRow
  | 0 => stInit ub lb period
  | k + 1 => stStep ub lb close (period + k) (stRows ub lb close period k)

/-- Indicators.calculate_supertrend: the four arrays as a function of the
bar index (rows before `period - 1` keep the `np.zeros` initial values). -/
def calculate_supertrend (ta : TALib) (period : ℕ) (multiplier : ℚ)
    (high low close : List FQ) : ℕ → STRow :=
  let atr := ta.ATR high low close period
  let ub : ℕ → FQ := fun i =>
    fadd (fdiv (fadd (high.getD i none) (low.getD i none)) (some 2))
      (fmul (some multiplier) (atr.getD i none))
  let lb : ℕ → FQ := fun i =>
    fsub (fdiv (fadd (high.getD i none) (low.getD i none)) (some 2))
      (fmul (some multiplier) (atr.getD i none))
  let closeF : ℕ → FQ := fun i => close.getD i none
  fun i =>
    if i + 1 < period then ⟨some 0, 0, some 0, some 0⟩
    else stRows ub lb closeF period (i + 1 - period)

/-- Indicators.get_supertrend_result: the last row, packaged. -/
def get_supertrend_result (ta : TALib) (period : ℕ) (multiplier : ℚ)
    (high low close : List FQ) : SupertrendResult :=
  let row := calculate_supertrend ta period multiplier high low close (close.length - 1)
  ⟨row.supertrend, if row.direction = 1 then .up else .down, row.finalUpper, row.finalLower⟩

/-- Indicators._safe_get_last: the last value of the array, scanning
backwards past NaN entries, with a default when nothing is valid. -/
def safe_get_last (arr : List FQ) (default : ℚ) : ℚ :=
  ((arr.reverse.findSome? id).getD default)

/-- Nonnegative rational square root used by the TA-Lib BBANDS model:
exact whenever the argument is a square of a rational (every concrete
variance evaluated in this file is), and always nonnegative. -/
def ratSqrt (q : ℚ) : ℚ :=
  (Nat.sqrt q.num.toNat : ℚ) / (Nat.sqrt q.den : ℚ)

/-- Arithmetic mean of a window. -/
def sma (xs : List ℚ) : ℚ := xs.sum / (xs.length : ℚ)

/-- Population variance of a window. -/
def popVar (xs : List ℚ) : ℚ :=
  ((xs.map fun x => (x - sma xs) ^ 2).sum) / (xs.length : ℚ)

/-- Extract a window of definite values; `none` as soon as any cell is
NaN. -/
def allSome : List FQ → Option (List ℚ)
  | [] => some []
  | none :: _ => none
  | some x :: l => (allSome l).map (x :: ·)

/-- One output row of the BBANDS model: NaN if the window has a NaN,
otherwise `(sma + nbdev·sd, sma, sma − nbdev·sd)`. -/
def bbRow (nbdev : ℚ) (window : List FQ) : FQ × FQ × FQ :=
  match allSome window with
  | none => (none, none, none)
  | some xs =>
      let m := sma xs
      let dev := nbdev * ratSqrt (popVar xs)
      (some (m + dev), some m, some (m - dev))

/-- The length-`period` window of cells ending at index `i`. -/
def bbWindow (period : ℕ) (close : List FQ) (i : ℕ) : List FQ :=
  (close.take (i + 1)).drop (i + 1 - period)

/-- Modelled from the spec: `talib.BBANDS(close, period, nbdev, nbdev,
matype=0)` — the external TA-Lib call inside Indicators.calculate_bollinger
is not repository code.  Middle band is the simple moving average of the
trailing `period` closes, upper/lower are `nbdev` population standard
deviations away, and the first `period - 1` outputs (or windows containing
NaN) are NaN. -/
def bbands_model (period : ℕ) (nbdev : ℚ) (close : List FQ) :
    List FQ × List FQ × List FQ :=
  ( (List.range close.length).map fun i =>
      if period ≤ i + 1 then (bbRow nbdev (bbWindow period close i)).1 else none,
    (List.range close.length).map fun i =>
      if period ≤ i + 1 then (bbRow nbdev (bbWindow period close i)).2.1 else none,
    (List.range close.length).map fun i =>
      if period ≤ i + 1 then (bbRow nbdev (bbWindow period close i)).2.2 else none )

/-- Indicators.calculate_bollinger (delegates to TA-Lib). -/
def calculate_bollinger (ta : TALib) (cfg : Settings) (close : List FQ) :
    List FQ × List FQ × List FQ :=
  ta.BBANDS close cfg.bollinger.period cfg.bollinger.std_dev

/-- Indicators.get_bollinger_result: width and fractional band position of
the current price, from the last array entries. -/
def get_bollinger_result (ta : TALib) (cfg : Settings) (close : List FQ)
    (current_price : ℚ) : BollingerResult :=
  let bands := calculate_bollinger ta cfg close
  let u := bands.1.getLastD none
  let m := bands.2.1.getLastD none
  let l := bands.2.2.getLastD none
  let width := if fne m (some 0) then fdiv (fsub u l) m else some 0
  let band_range := fsub u l
  let position :=
    if fne band_range (some 0) then fdiv (fsub (some current_price) l) band_range
    else some (1/2)
  ⟨u, m, l, width, position⟩

/-- The two error kinds raised by Indicators.calculate_all (ValueError
messages are reduced to their kind). -/
inductive CalcErr where
  | insufficientData
  | invalidPrice
  deriving Repr, DecidableEq

/-- The minimum bar count demanded by calculate_all: the largest of the
five period parameters it hard-codes, plus a 10-bar buffer. -/
def minRequired (cfg : Settings) : ℕ :=
  max (max (max (max cfg.supertrend.period cfg.ema.slow_period) cfg.bollinger.period)
    cfg.adx.period) cfg.atr.period + 10

/-- Indicators.calculate_all: validates history length and the latest
close, then assembles the snapshot from the oracle outputs. -/
def calculate_all (ta : TALib) (cfg : Settings) (df_fast df_slow : List FBar) :
    Except CalcErr IndicatorValues :=
  if df_fast.length < minRequired cfg then .error .insufficientData
  else if df_slow.length < minRequired cfg then .error .insufficientData
  else
    let high_fast := df_fast.map (·.high)
    let low_fast := df_fast.map (·.low)
    let close_fast := df_fast.map (·.close)
    let high_slow := df_slow.map (·.high)
    let low_slow := df_slow.map (·.low)
    let close_slow := df_slow.map (·.close)
    match close_fast.getLastD none with
    | none => .error .invalidPrice  -- np.isnan(current_price)
    | some p =>
      if p ≤ 0 then .error .invalidPrice
      else
        let st_fast := get_supertrend_result ta cfg.supertrend.period
          cfg.supertrend.multiplier high_fast low_fast close_fast
        let st_slow := get_supertrend_result ta cfg.supertrend.period
          cfg.supertrend.multiplier high_slow low_slow close_slow
        let ema_fast_arr := ta.EMA close_fast cfg.ema.fast_period
        let ema_slow_arr := ta.EMA close_fast cfg.ema.slow_period
        let rsi_arr := ta.RSI close_fast cfg.rsi.period
        let bb_result := get_bollinger_result ta cfg close_fast p
        let adx_arr := ta.ADX high_slow low_slow close_slow cfg.adx.period
        let plus_di_arr := ta.PLUS_DI high_slow low_slow close_slow cfg.adx.period
        let minus_di_arr := ta.MINUS_DI high_slow low_slow close_slow cfg.adx.period
        let atr_arr := ta.ATR high_fast low_fast close_fast cfg.atr.period
        let atr := safe_get_last atr_arr (p * (1/50))
        .ok
          { supertrend_fast := st_fast
            supertrend_slow := st_slow
            ema_fast := safe_get_last ema_fast_arr p
            ema_slow := safe_get_last ema_slow_arr p
            rsi := safe_get_last rsi_arr 50
            bollinger := bb_result
            adx := safe_get_last adx_arr 20
            plus_di := safe_get_last plus_di_arr 20
            minus_di := safe_get_last minus_di_arr 20
            atr := atr
            atr_percent := if p ≠ 0 then atr / p else 0
            current_price := p
            high := high_fast.getLastD none
            low := low_fast.getLastD none }

/-- MarketRegimeDetector.detect: classify, then update the stability
counter. -/
def detect (cfg : Settings) (ds : DetectorState) (iv : IndicatorValues) :
    MarketState × DetectorState :=
  let adx := iv.adx
  let atr_percent := iv.atr_percent
  let bb_position := iv.bollinger.position
  let bb_width := iv.bollinger.width
  let is_trending := check_trending cfg adx atr_percent
  let is_ranging := check_ranging cfg adx atr_percent bb_position
  let (regime, confidence, description) :=
    if is_trending && !is_ranging then
      (MarketRegime.trending, some (trending_confidence cfg adx atr_percent),
        "trending market")
    else if is_ranging && !is_trending then
      (MarketRegime.ranging, ranging_confidence cfg adx bb_position,
        "ranging market")
    else (MarketRegime.unknown, some 0, "market state unclear")
  let ds1 :=
    if regime = ds.last_regime then { ds with regime_count := ds.regime_count + 1 }
    else ⟨regime, 1⟩
  (⟨regime, adx, atr_percent, bb_width, bb_position, confidence, description⟩, ds1)

/-! ## Mean-reversion strategy V2 (src/strategies/mean_reversion_v2.py,
src/strategies/base.py) -/

/-- Signal dataclass from strategies/base.py (timestamp is passed in
instead of read from the wall clock; the SignalType.NONE member is never
emitted). -/
structure Signal where
  signal_type : SignalType
  strategy : StrategyType
  strength : FQ
  entry_price : ℚ
  stop_loss : FQ
  take_profit : FQ
  confidence : FQ
  reason : String
  deriving Repr, DecidableEq

/-- BaseStrategy.create_signal (the `last_signal`/`signal_count` bookkeeping
touches no decision logic and is dropped). -/
def create_signal (strategy : StrategyType) (signal_type : SignalType)
    (entry_price : ℚ) (stops : StopLossTarget) (strength confidence : FQ)
    (reason : String) : Signal :=
  ⟨signal_type, strategy, strength, entry_price, stops.stop_loss, stops.take_profit,
    confidence, reason⟩

/-- MeanReversionStrategyV2.MIN_RISK_REWARD. -/
def MRV2_MIN_RISK_REWARD : ℚ := 3/2

/-- MeanReversionStrategyV2.MAX_STOP_DISTANCE_PCT. -/
def MRV2_MAX_STOP_DISTANCE_PCT : ℚ := 9/200

/-- MeanReversionStrategyV2.EXTREME_OVERSOLD_BB. -/
def MRV2_EXTREME_OVERSOLD_BB : ℚ := 1/4

/-- MeanReversionStrategyV2.EXTREME_OVERBOUGHT_BB. -/
def MRV2_EXTREME_OVERBOUGHT_BB : ℚ := 3/4

/-- The StopLossTarget built inside _create_long_signal (lines 80-115):
ATR-scaled stop capped at 4.5% of price, target at the middle band when far
enough, else at the 1.5× minimum risk-reward point, and always capped at
98% of the upper band. -/
def mrv2_long_stops (bb : BollingerResult) (current_price atr : ℚ) : StopLossTarget :=
  let stop_distance := qmin (atr * (3/2)) (current_price * MRV2_MAX_STOP_DISTANCE_PCT)
  let stop_loss := current_price - stop_distance
  let min_take_profit := current_price + stop_distance * MRV2_MIN_RISK_REWARD
  let tp0 := if fge bb.middle (some min_take_profit) then bb.middle else some min_take_profit
  let take_profit := fminPy tp0 (fmul bb.upper (some (49/50)))
  let profit_distance := fsub take_profit (some current_price)
  let actual_rr :=
    if stop_distance > 0 then fdiv profit_distance (some stop_distance) else some 0
  ⟨some stop_loss, take_profit, actual_rr,
    fdiv (some stop_distance) (some current_price),
    fdiv profit_distance (some current_price)⟩

/-- MeanReversionStrategyV2._create_long_signal: gate on the realized
risk-reward ratio, then emit the signal. -/
def mrv2_create_long_signal (bb : BollingerResult) (current_price atr rsi : ℚ) :
    Option Signal :=
  let stops := mrv2_long_stops bb current_price atr
  if flt stops.risk_reward_ratio (some (11/10)) then none
  else
    let rsi_strength : ℚ := if rsi < 30 then (30 - rsi) / 30 else 0
    let bb_strength := fdiv (fsub (some MRV2_EXTREME_OVERSOLD_BB) bb.position)
      (some MRV2_EXTREME_OVERSOLD_BB)
    let strength := fdiv (fadd (some rsi_strength) bb_strength) (some 2)
    some (create_signal .mean_reversion .long current_price stops strength
      (fminPy (some (4/5)) (fadd strength (some (3/10)))) "MR_V2 oversold bounce")

/-- The StopLossTarget built inside _create_short_signal (lines 140-172),
mirror of the long side with the target floored at 102% of the lower
band. -/
def mrv2_short_stops (bb : BollingerResult) (current_price atr : ℚ) : StopLossTarget :=
  let stop_distance := qmin (atr * (3/2)) (current_price * MRV2_MAX_STOP_DISTANCE_PCT)
  let stop_loss := current_price + stop_distance
  let min_take_profit := current_price - stop_distance * MRV2_MIN_RISK_REWARD
  let tp0 := if fle bb.middle (some min_take_profit) then bb.middle else some min_take_profit
  let take_profit := fmaxPy tp0 (fmul bb.lower (some (51/50)))
  let profit_distance := fsub (some current_price) take_profit
  let actual_rr :=
    if stop_distance > 0 then fdiv profit_distance (some stop_distance) else some 0
  ⟨some stop_loss, take_profit, actual_rr,
    fdiv (some stop_distance) (some current_price),
    fdiv profit_distance (some current_price)⟩

/-- MeanReversionStrategyV2._create_short_signal. -/
def mrv2_create_short_signal (bb : BollingerResult) (current_price atr rsi : ℚ) :
    Option Signal :=
  let stops := mrv2_short_stops bb current_price atr
  if flt stops.risk_reward_ratio (some (11/10)) then none
  else
    let rsi_strength : ℚ := if rsi > 70 then (rsi - 70) / 30 else 0
    let bb_strength := fdiv (fsub bb.position (some MRV2_EXTREME_OVERBOUGHT_BB))
      (some (1 - MRV2_EXTREME_OVERBOUGHT_BB))
    let strength := fdiv (fadd (some rsi_strength) bb_strength) (some 2)
    some (create_signal .mean_reversion .short current_price stops strength
      (fminPy (some (4/5)) (fadd strength (some (3/10)))) "MR_V2 overbought pullback")

/-- MeanReversionStrategyV2.is_applicable: ranging markets only. -/
def mrv2_is_applicable (market_state : MarketState) : Bool :=
  market_state.regime = MarketRegime.ranging

/-- MeanReversionStrategyV2.check_entry: extreme oversold goes long,
extreme overbought goes short, otherwise no signal. -/
def mrv2_check_entry (iv : IndicatorValues) (market_state : MarketState) :
    Option Signal :=
  if !mrv2_is_applicable market_state then none
  else
    let rsi := iv.rsi
    let bb := iv.bollinger
    let current_price := iv.current_price
    let atr := iv.atr
    if flt bb.position (some MRV2_EXTREME_OVERSOLD_BB) && decide (rsi < 25) then
      mrv2_create_long_signal bb current_price atr rsi
    else if fgt bb.position (some MRV2_EXTREME_OVERBOUGHT_BB) && decide (rsi > 75) then
      mrv2_create_short_signal bb current_price atr rsi
    else none

/-! ## Supporting lemmas for the risk manager -/

lemma record_trade_current_balance (cfg : Settings) (now : ℚ) (s : RMState) (pnl : ℚ)
    (strat : String) :
    (record_trade cfg now s pnl strat).current_balance = s.current_balance + pnl := by
  simp only [record_trade, update_balance, set_cooldown_if_needed]
  split_ifs <;> rfl

lemma record_trades_balance (cfg : Settings) (now : ℚ) (strat : String) :
    ∀ (ps : List ℚ) (s : RMState),
      (record_trades cfg now strat s ps).current_balance = s.current_balance + ps.sum := by
  intro ps
  induction ps with
  | nil => intro s; simp [record_trades]
  | cons p ps ih =>
      intro s
      have h1 : record_trades cfg now strat s (p :: ps) =
          record_trades cfg now strat (record_trade cfg now s p strat) ps := rfl
      rw [h1, ih, record_trade_current_balance]
      simp
      ring

lemma record_trade_loss_counters (cfg : Settings) (now : ℚ) (s : RMState) (pnl : ℚ)
    (strat : String) (h : ¬ 0 < pnl) :
    (record_trade cfg now s pnl strat).consecutive_losses = s.consecutive_losses + 1 ∧
    (record_trade cfg now s pnl strat).consecutive_wins = 0 := by
  simp only [record_trade, update_balance, set_cooldown_if_needed, gt_iff_lt, if_neg h]
  split_ifs <;> simp

lemma record_trade_win_counters (cfg : Settings) (now : ℚ) (s : RMState) (pnl : ℚ)
    (strat : String) (h : 0 < pnl) :
    (record_trade cfg now s pnl strat).consecutive_losses = 0 ∧
    (record_trade cfg now s pnl strat).consecutive_wins = s.consecutive_wins + 1 := by
  simp only [record_trade, update_balance, set_cooldown_if_needed, gt_iff_lt, if_pos h]
  split_ifs <;> simp

lemma record_trades_all_losses (cfg : Settings) (now : ℚ) (strat : String) :
    ∀ (ps : List ℚ) (s : RMState), ps ≠ [] → (∀ p ∈ ps, ¬ 0 < p) →
      (record_trades cfg now strat s ps).consecutive_losses =
        s.consecutive_losses + ps.length ∧
      (record_trades cfg now strat s ps).consecutive_wins = 0 := by
  intro ps
  induction ps with
  | nil => intro s hne; exact absurd rfl hne
  | cons p ps ih =>
      intro s _ hall
      have hp : ¬ 0 < p := hall p (by simp)
      have h1 : record_trades cfg now strat s (p :: ps) =
          record_trades cfg now strat (record_trade cfg now s p strat) ps := rfl
      rcases eq_or_ne ps [] with hnil | hne2
      · subst hnil
        rw [h1]
        have h2 := record_trade_loss_counters cfg now s p strat hp
        simpa [record_trades] using h2
      · have h3 := ih (record_trade cfg now s p strat) hne2 (fun q hq => hall q (by simp [hq]))
        have h2 := record_trade_loss_counters cfg now s p strat hp
        rw [h1]
        refine ⟨?_, h3.2⟩
        rw [h3.1, h2.1]
        simp
        omega

lemma record_trades_all_wins (cfg : Settings) (now : ℚ) (strat : String) :
    ∀ (ps : List ℚ) (s : RMState), ps ≠ [] → (∀ p ∈ ps, 0 < p) →
      (record_trades cfg now strat s ps).consecutive_losses = 0 := by
  intro ps
  induction ps with
  | nil => intro s hne; exact absurd rfl hne
  | cons p ps ih =>
      intro s _ hall
      have hp : 0 < p := hall p (by simp)
      have h1 : record_trades cfg now strat s (p :: ps) =
          record_trades cfg now strat (record_trade cfg now s p strat) ps := rfl
      rcases eq_or_ne ps [] with hnil | hne2
      · subst hnil
        rw [h1]
        have h2 := record_trade_win_counters cfg now s p strat hp
        simpa [record_trades] using h2.1
      · rw [h1]
        exact ih (record_trade cfg now s p strat) hne2 (fun q hq => hall q (by simp [hq]))

lemma list_sum_map_neg (l : List ℚ) : (l.map fun x => -x).sum = -l.sum := by
  induction l with
  | nil => simp
  | cons x l ih => simp [ih]; ring

lemma calculate_leverage_range (cfg : Settings) (s : RMState)
    (h : cfg.leverage.min_leverage ≤ cfg.leverage.max_leverage) :
    calculate_leverage cfg s = 0 ∨
      (cfg.leverage.min_leverage ≤ calculate_leverage cfg s ∧
        calculate_leverage cfg s ≤ cfg.leverage.max_leverage) := by
  simp only [calculate_leverage, qmax, qmin]
  split_ifs <;>
    first
      | exact Or.inl rfl
      | exact Or.inr ⟨le_refl _, h⟩
      | (right; constructor <;> linarith)

lemma calculate_leverage_zero_on_breach (cfg : Settings) (s : RMState)
    (hbr : s.daily_pnl < -cfg.risk.max_daily_loss ∨
      cfg.risk.max_drawdown < get_current_drawdown s)
    (hlt : s.consecutive_losses < cfg.risk.consecutive_loss_threshold_3) :
    calculate_leverage cfg s = 0 := by
  simp only [calculate_leverage, gt_iff_lt]
  split_ifs <;> first | rfl | omega | tauto

lemma getLast?_pushCap (n : ℕ) (hn : 1 ≤ n) (l : List α) (a : α) :
    (pushCap n l a).getLast? = some a := by
  unfold pushCap
  rw [List.drop_append_of_le_length (by omega)]
  exact List.getLast?_concat _

/-! ## Claims C1, C2, C7, C10 -/

/-- C1 (amended).  For every RiskManager state with a well-formed leverage
range, `calculate_leverage` returns either exactly 0 or a value inside
[min_leverage, max_leverage]; and it returns exactly 0 whenever the daily
loss limit or the drawdown limit is breached, provided the consecutive-loss
count is below the high threshold.  (The original claim, that a breach
forces 0 unconditionally, is refuted by `c1_zero_on_breach_false`: the
consecutive-loss override fires first and returns min_leverage.) -/
theorem c1_leverage_range_and_halt (cfg : Settings) (s : RMState)
    (h : cfg.leverage.min_leverage ≤ cfg.leverage.max_leverage) :
    (calculate_leverage cfg s = 0 ∨
      (cfg.leverage.min_leverage ≤ calculate_leverage cfg s ∧
        calculate_leverage cfg s ≤ cfg.leverage.max_leverage)) ∧
    ((s.daily_pnl < -cfg.risk.max_daily_loss ∨
        cfg.risk.max_drawdown < get_current_drawdown s) →
      s.consecutive_losses < cfg.risk.consecutive_loss_threshold_3 →
      calculate_leverage cfg s = 0) :=
  ⟨calculate_leverage_range cfg s h,
    fun hbr hlt => calculate_leverage_zero_on_breach cfg s hbr hlt⟩

/-- Witness for C1 at the default configuration and a freshly initialised
risk state. -/
theorem c1_leverage_range_and_halt_witness :
    (defaultSettings.leverage.min_leverage ≤ defaultSettings.leverage.max_leverage) ∧
    ((calculate_leverage defaultSettings (rmInit 1000) = 0 ∨
      (defaultSettings.leverage.min_leverage ≤ calculate_leverage defaultSettings (rmInit 1000) ∧
        calculate_leverage defaultSettings (rmInit 1000) ≤
          defaultSettings.leverage.max_leverage)) ∧
    (((rmInit 1000).daily_pnl < -defaultSettings.risk.max_daily_loss ∨
        defaultSettings.risk.max_drawdown < get_current_drawdown (rmInit 1000)) →
      (rmInit 1000).consecutive_losses < defaultSettings.risk.consecutive_loss_threshold_3 →
      calculate_leverage defaultSettings (rmInit 1000) = 0)) :=
  ⟨by norm_num [defaultSettings],
    c1_leverage_range_and_halt defaultSettings (rmInit 1000) (by norm_num [defaultSettings])⟩

/-- A state whose daily loss limit is breached (daily −6% < −5%) while the
consecutive-loss count sits at the high threshold. -/
def c1BreachState : RMState :=
  { rmInit 1000 with consecutive_losses := 3, daily_pnl := -(3/50) }

/-- C1 counterexample: with the daily loss limit breached, the leverage is
min_leverage = 1, not the 0 demanded by the claim — the consecutive-loss
override has higher priority than the daily-loss halt. -/
theorem c1_zero_on_breach_false :
    c1BreachState.daily_pnl < -defaultSettings.risk.max_daily_loss ∧
    calculate_leverage defaultSettings c1BreachState = defaultSettings.leverage.min_leverage ∧
    calculate_leverage defaultSettings c1BreachState ≠ 0 := by
  with_unfolding_all decide

/-- C2 (confirmed).  Whenever the consecutive-loss count is at or above the
high threshold, `calculate_leverage` returns exactly the configured minimum
leverage, for every state — in particular regardless of the rolling
win-rate, whose boost multiplier is overridden by the early return. -/
theorem c2_consecutive_loss_floor (cfg : Settings) (s : RMState)
    (h : cfg.risk.consecutive_loss_threshold_3 ≤ s.consecutive_losses) :
    calculate_leverage cfg s = cfg.leverage.min_leverage := by
  simp only [calculate_leverage]
  rw [if_pos h]

/-- Witness for C2: three consecutive losses at the default configuration
floor the leverage to 1. -/
theorem c2_consecutive_loss_floor_witness :
    (defaultSettings.risk.consecutive_loss_threshold_3 ≤
      ({ rmInit 1000 with consecutive_losses := 3 } : RMState).consecutive_losses) ∧
    calculate_leverage defaultSettings { rmInit 1000 with consecutive_losses := 3 } =
      defaultSettings.leverage.min_leverage :=
  ⟨by norm_num [defaultSettings, rmInit],
    c2_consecutive_loss_floor defaultSettings _ (by norm_num [defaultSettings, rmInit])⟩

/-- C7 (amended).  Recording N wins then N identical losses (no period
boundary crossed) restores the account balance to its pre-sequence value
and leaves the streak counters at consecutive_wins = 0 and
consecutive_losses = N.  The day/week P&L accumulators do NOT return to
their pre-sequence values in general — each trade is accumulated as a
fraction of the balance at the time it is recorded, so the win and loss
percentages differ (`c7_round_trip_false`). -/
theorem c7_round_trip (cfg : Settings) (now : ℚ) (strat : String) (s : RMState)
    (xs : List ℚ) (hpos : ∀ x ∈ xs, 0 < x) (hne : xs ≠ []) :
    (record_trades cfg now strat (record_trades cfg now strat s xs)
        (xs.map fun x => -x)).current_balance = s.current_balance ∧
    (record_trades cfg now strat (record_trades cfg now strat s xs)
        (xs.map fun x => -x)).consecutive_wins = 0 ∧
    (record_trades cfg now strat (record_trades cfg now strat s xs)
        (xs.map fun x => -x)).consecutive_losses = xs.length := by
  have hbal := record_trades_balance cfg now strat (xs.map fun x => -x)
    (record_trades cfg now strat s xs)
  have hbal2 := record_trades_balance cfg now strat xs s
  have hlw := record_trades_all_wins cfg now strat xs s hne hpos
  have hmapne : (xs.map fun x => -x) ≠ [] := by
    simpa using hne
  have hmneg : ∀ p ∈ (xs.map fun x => -x), ¬ 0 < p := by
    intro p hp
    rcases List.mem_map.1 hp with ⟨x, hx, rfl⟩
    have := hpos x hx
    linarith
  have hcnt := record_trades_all_losses cfg now strat (xs.map fun x => -x)
    (record_trades cfg now strat s xs) hmapne hmneg
  refine ⟨?_, hcnt.2, ?_⟩
  · rw [hbal, hbal2, list_sum_map_neg]; ring
  · rw [hcnt.1, hlw]; simp

/-- Witness for C7: one $100 win then one $100 loss on a fresh $1000
account. -/
theorem c7_round_trip_witness :
    (∀ x ∈ [(100 : ℚ)], 0 < x) ∧ ([(100 : ℚ)] ≠ []) ∧
    ((record_trades defaultSettings 0 "s" (record_trades defaultSettings 0 "s"
        (rmInit 1000) [100]) ([(100 : ℚ)].map fun x => -x)).current_balance =
      (rmInit 1000).current_balance ∧
    (record_trades defaultSettings 0 "s" (record_trades defaultSettings 0 "s"
        (rmInit 1000) [100]) ([(100 : ℚ)].map fun x => -x)).consecutive_wins = 0 ∧
    (record_trades defaultSettings 0 "s" (record_trades defaultSettings 0 "s"
        (rmInit 1000) [100]) ([(100 : ℚ)].map fun x => -x)).consecutive_losses =
      [(100 : ℚ)].length) :=
  ⟨by norm_num, by simp,
    c7_round_trip defaultSettings 0 "s" (rmInit 1000) [100] (by norm_num) (by simp)⟩

/-- C7 counterexample: after a $100 win and a $100 loss on a fresh $1000
account the daily accumulator holds 1/10 − 1/11 = 1/110 ≠ 0, the weekly
accumulator likewise, and the consecutive-loss counter holds 1 ≠ 0 — the
claimed round-trip symmetry fails already at N = 1. -/
theorem c7_round_trip_false :
    (record_trades defaultSettings 0 "s" (rmInit 1000) [100, -100]).daily_pnl ≠
      (rmInit 1000).daily_pnl ∧
    (record_trades defaultSettings 0 "s" (rmInit 1000) [100, -100]).weekly_pnl ≠
      (rmInit 1000).weekly_pnl ∧
    (record_trades defaultSettings 0 "s" (rmInit 1000) [100, -100]).consecutive_losses ≠
      (rmInit 1000).consecutive_losses := by
  with_unfolding_all decide

/-- C10 (confirmed).  Recording a trade with P&L exactly 0 is classified as
a loss for streak purposes — the loss counter increments, the win counter
resets, and the appended history record is a non-win — yet the cooldown
timer is left untouched, because the cooldown branch requires strictly
negative P&L. -/
theorem c10_zero_pnl_is_loss_no_cooldown (cfg : Settings) (now : ℚ) (s : RMState)
    (strat : String) :
    (record_trade cfg now s 0 strat).consecutive_losses = s.consecutive_losses + 1 ∧
    (record_trade cfg now s 0 strat).consecutive_wins = 0 ∧
    ((record_trade cfg now s 0 strat).trade_history.getLast?.map TradeRecord.is_win) =
      some false ∧
    (record_trade cfg now s 0 strat).cooldown_until = s.cooldown_until := by
  have hcnt := record_trade_loss_counters cfg now s 0 strat (by norm_num)
  refine ⟨hcnt.1, hcnt.2, ?_, ?_⟩
  · simp only [record_trade, update_balance, set_cooldown_if_needed]
    split_ifs <;>
      simp [getLast?_pushCap 100 (by norm_num)]
  · simp only [record_trade, update_balance, set_cooldown_if_needed]
    split_ifs <;> first | rfl | linarith

/-! ## Claim C6 -/

set_option maxRecDepth 4000 in
/-- C6 (amended).  At balance 1000, risk 2%, entry 50000, stop 49000,
leverage 2 and a neutral strength (1/2): risk_amount = 20, intermediate
base position value = 1000, pre-clamp leveraged notional = 2000 — exactly
as claimed — but the max-position clamp (balance × leverage ×
max_position_ratio = 1000) caps the returned notional at 1000, so the
returned base_amount is 1000 / 50000 = 0.02, not the claimed 0.04. -/
theorem c6_position_size_scenario :
    pm_risk_amount defaultSettings 1000 = 20 ∧
    pm_base_position defaultSettings 1000 50000 49000 .long = 1000 ∧
    pm_leveraged_position defaultSettings 1000 2 50000 49000 .long (1/2) = 2000 ∧
    (calculate_position_size defaultSettings 1000 2 50000 49000 .long (1/2)).risk_amount = 20 ∧
    (calculate_position_size defaultSettings 1000 2 50000 49000 .long (1/2)).size = 1000 ∧
    (calculate_position_size defaultSettings 1000 2 50000 49000 .long (1/2)).base_amount = 1/50 := by
  with_unfolding_all decide

set_option maxRecDepth 4000 in
/-- C6 counterexample: the returned base_amount at the claimed inputs is
0.02, not the 0.04 stated in the claim. -/
theorem c6_base_amount_false :
    (calculate_position_size defaultSettings 1000 2 50000 49000 .long (1/2)).base_amount = 1/50 ∧
    (1/50 : ℚ) ≠ 1/25 := by
  with_unfolding_all decide

/-! ## Claim C9 -/

/-- C9 (confirmed).  The regime label returned by detect() is trending
exactly when the permissive trending test (ADX above threshold OR
volatility fraction above the trending threshold) holds and the ranging
test (ADX below threshold; volatility and band position not gating) does
not; ranging exactly in the mirrored case; and unknown otherwise — in
particular when both tests hold simultaneously (low ADX with high
volatility). -/
theorem c9_regime_label (cfg : Settings) (ds : DetectorState) (iv : IndicatorValues) :
    ((detect cfg ds iv).1.regime = MarketRegime.trending ↔
      ((cfg.adx.threshold < iv.adx ∨ cfg.atr.trending_threshold < iv.atr_percent) ∧
        ¬ iv.adx < cfg.adx.threshold)) ∧
    ((detect cfg ds iv).1.regime = MarketRegime.ranging ↔
      (iv.adx < cfg.adx.threshold ∧
        ¬ (cfg.adx.threshold < iv.adx ∨ cfg.atr.trending_threshold < iv.atr_percent))) ∧
    ((detect cfg ds iv).1.regime = MarketRegime.unknown ↔
      (¬ ((cfg.adx.threshold < iv.adx ∨ cfg.atr.trending_threshold < iv.atr_percent) ∧
          ¬ iv.adx < cfg.adx.threshold) ∧
        ¬ (iv.adx < cfg.adx.threshold ∧
          ¬ (cfg.adx.threshold < iv.adx ∨ cfg.atr.trending_threshold < iv.atr_percent)))) := by
  by_cases h1 : iv.adx < cfg.adx.threshold <;>
    by_cases h2 : cfg.adx.threshold < iv.adx <;>
      by_cases h3 : cfg.atr.trending_threshold < iv.atr_percent <;>
        simp [detect, check_trending, check_ranging, gt_iff_lt, h1, h2, h3]

/-! ## Supporting lemmas for the mean-reversion strategy -/

lemma option_elim_true_mono {α : Type} {P Q : α → Prop} (o : Option α)
    (h : o.elim True P) (himp : ∀ a, P a → Q a) : o.elim True Q := by
  cases o with
  | none => trivial
  | some a => exact himp a h

lemma mrv2_long_rr_some (bb : BollingerResult) (price atr : ℚ) :
    ∃ r : ℚ, (mrv2_long_stops bb price atr).risk_reward_ratio = some r := by
  unfold mrv2_long_stops
  rcases bb.middle with _ | m <;> rcases bb.upper with _ | u <;>
    simp [fge, fle, fminPy, flt, fmul, fsub, fdiv, fadd] <;>
      split_ifs <;>
        (try simp [fdiv, fsub, fminPy, fmul, flt]) <;>
          (try linarith)

lemma mrv2_short_rr_some (bb : BollingerResult) (price atr : ℚ) :
    ∃ r : ℚ, (mrv2_short_stops bb price atr).risk_reward_ratio = some r := by
  unfold mrv2_short_stops
  rcases bb.middle with _ | m <;> rcases bb.lower with _ | l <;>
    simp [fge, fle, fmaxPy, flt, fgt, fmul, fsub, fdiv, fadd] <;>
      split_ifs <;>
        (try simp [fdiv, fsub, fmaxPy, fmul, flt, fgt]) <;>
          (try linarith)

lemma mrv2_long_gate (bb : BollingerResult) (price atr rsi : ℚ) :
    (mrv2_create_long_signal bb price atr rsi).elim True fun sig =>
      sig.signal_type = .long ∧
      fle (some (11/10)) (mrv2_long_stops bb price atr).risk_reward_ratio = true := by
  obtain ⟨r, hr⟩ := mrv2_long_rr_some bb price atr
  cases hflt : flt (mrv2_long_stops bb price atr).risk_reward_ratio (some (11/10)) with
  | true => simp [mrv2_create_long_signal, hflt]
  | false =>
      rw [hr] at hflt
      simp only [flt, decide_eq_false_iff_not, not_lt] at hflt
      simp [mrv2_create_long_signal, hr, flt, not_lt.2 hflt, create_signal, fle, hflt]

lemma mrv2_short_gate (bb : BollingerResult) (price atr rsi : ℚ) :
    (mrv2_create_short_signal bb price atr rsi).elim True fun sig =>
      sig.signal_type = .short ∧
      fle (some (11/10)) (mrv2_short_stops bb price atr).risk_reward_ratio = true := by
  obtain ⟨r, hr⟩ := mrv2_short_rr_some bb price atr
  cases hflt : flt (mrv2_short_stops bb price atr).risk_reward_ratio (some (11/10)) with
  | true => simp [mrv2_create_short_signal, hflt]
  | false =>
      rw [hr] at hflt
      simp only [flt, decide_eq_false_iff_not, not_lt] at hflt
      simp [mrv2_create_short_signal, hr, flt, not_lt.2 hflt, create_signal, fle, hflt]

/-! ## Claim C3 -/

/-- C3 (amended).  Every Signal returned by the mean-reversion-v2 entry
check carries a StopLossTarget whose reported risk-reward ratio is ≥ 1.1 —
the gate actually written in the source (`if actual_rr < 1.1: return
None`) — not the ≥ 1.5 of the claim; `c3_min_rr_false` exhibits a returned
Signal whose ratio is 1172/891 ≈ 1.32 < 1.5. -/
theorem c3_min_rr (iv : IndicatorValues) (st : MarketState) :
    (mrv2_check_entry iv st).elim True fun sig =>
      (sig.signal_type = .long ∧
        fle (some (11/10))
          (mrv2_long_stops iv.bollinger iv.current_price iv.atr).risk_reward_ratio = true) ∨
      (sig.signal_type = .short ∧
        fle (some (11/10))
          (mrv2_short_stops iv.bollinger iv.current_price iv.atr).risk_reward_ratio = true) := by
  unfold mrv2_check_entry
  dsimp only
  split_ifs with h1 h2 h3
  · simp
  · exact option_elim_true_mono _ (mrv2_long_gate iv.bollinger iv.current_price iv.atr iv.rsi)
      (fun a ha => Or.inl ha)
  · exact option_elim_true_mono _ (mrv2_short_gate iv.bollinger iv.current_price iv.atr iv.rsi)
      (fun a ha => Or.inr ha)
  · simp

/-- A snapshot in extreme-oversold territory (band position 0, RSI 20)
whose ATR is large relative to a tight band, so the take-profit cap at 98%
of the upper band lands between 1.1 and 1.5 times the stop distance. -/
def c3IV : IndicatorValues :=
  { supertrend_fast := ⟨none, .up, none, none⟩
    supertrend_slow := ⟨none, .up, none, none⟩
    ema_fast := 0
    ema_slow := 0
    rsi := 20
    bollinger := ⟨some 107, some 103, some 99, some (8/103), some 0⟩
    adx := 0
    plus_di := 0
    minus_di := 0
    atr := 100
    atr_percent := 0
    current_price := 99
    high := none
    low := none }

/-- A ranging-market state matching `c3IV`. -/
def c3MS : MarketState := ⟨.ranging, 0, 0, some (8/103), some 0, some 0, "r"⟩

/-- C3 counterexample: check_entry returns a Signal (take-profit capped to
0.98 × upper band = 104.86) whose StopLossTarget reports risk-reward
1172/891 ≈ 1.3154 — at least 1.1, but strictly below the claimed 1.5
minimum. -/
theorem c3_min_rr_false :
    (mrv2_check_entry c3IV c3MS).isSome = true ∧
    ((mrv2_check_entry c3IV c3MS).map fun sig => sig.take_profit) = some (some (5243/50)) ∧
    (mrv2_long_stops c3IV.bollinger c3IV.current_price c3IV.atr).risk_reward_ratio =
      some (1172/891) ∧
    (1172/891 : ℚ) < 3/2 := by
  refine ⟨?_, ?_, ?_, by norm_num⟩ <;>
    norm_num [mrv2_check_entry, mrv2_is_applicable, c3IV, c3MS, mrv2_create_long_signal,
      mrv2_long_stops, create_signal, qmin, fge, fle, fminPy, flt, fgt, fmul, fsub, fdiv, fadd,
      MRV2_MAX_STOP_DISTANCE_PCT, MRV2_MIN_RISK_REWARD, MRV2_EXTREME_OVERSOLD_BB,
      MRV2_EXTREME_OVERBOUGHT_BB]

/-! ## Claim C4 -/

/-- C4 (confirmed).  One step of the Supertrend iteration, at every bar
index `i = period + k ≥ period`: the final upper band becomes the new
candidate exactly when the candidate is below the previous final upper band
or the previous close broke above it, else it is carried (mirror rule for
the lower band); from an up trend the direction flips to down exactly when
the close drops below the updated final lower band, and from a down trend
it flips to up exactly when the close rises above the updated final upper
band; and the reported value is the final lower band while up, the final
upper band while down.  (Comparisons are float comparisons, false on
NaN.) -/
theorem c4_supertrend_step (ub lb close : ℕ → FQ) (period k : ℕ) :
    ((stRows ub lb close period (k+1)).finalUpper =
      if flt (ub (period + k)) ((stRows ub lb close period k).finalUpper) ||
          fgt (close (period + k - 1)) ((stRows ub lb close period k).finalUpper) then
        ub (period + k)
      else (stRows ub lb close period k).finalUpper) ∧
    ((stRows ub lb close period (k+1)).finalLower =
      if fgt (lb (period + k)) ((stRows ub lb close period k).finalLower) ||
          flt (close (period + k - 1)) ((stRows ub lb close period k).finalLower) then
        lb (period + k)
      else (stRows ub lb close period k).finalLower) ∧
    ((stRows ub lb close period k).direction = 1 →
      ((stRows ub lb close period (k+1)).direction = -1 ↔
        flt (close (period + k)) ((stRows ub lb close period (k+1)).finalLower) = true)) ∧
    ((stRows ub lb close period k).direction ≠ 1 →
      ((stRows ub lb close period (k+1)).direction = 1 ↔
        fgt (close (period + k)) ((stRows ub lb close period (k+1)).finalUpper) = true)) ∧
    ((stRows ub lb close period (k+1)).supertrend =
      if (stRows ub lb close period (k+1)).direction = 1 then
        (stRows ub lb close period (k+1)).finalLower
      else (stRows ub lb close period (k+1)).finalUpper) := by
  have h : stRows ub lb close period (k+1) =
      stStep ub lb close (period + k) (stRows ub lb close period k) := rfl
  rw [h]
  unfold stStep
  dsimp only
  split_ifs <;> simp_all

/-! ## Claim C8 -/

/-- C8 (confirmed).  For every TA-Lib oracle and configuration,
calculate_all raises the insufficient-data error exactly when either
timeframe has fewer than `minRequired` bars (the longest of the five
hard-coded indicator lookbacks plus a 10-bar buffer); given sufficient
data, it raises the invalid-price error exactly when the latest fast close
is NaN or non-positive; and in every other case it returns a snapshot. -/
theorem c8_calculate_all_errors (ta : TALib) (cfg : Settings) (df_fast df_slow : List FBar) :
    (calculate_all ta cfg df_fast df_slow = .error .insufficientData ↔
      (df_fast.length < minRequired cfg ∨ df_slow.length < minRequired cfg)) ∧
    (calculate_all ta cfg df_fast df_slow = .error .invalidPrice ↔
      (¬ (df_fast.length < minRequired cfg ∨ df_slow.length < minRequired cfg) ∧
        (((df_fast.map (·.close)).getLastD none) = none ∨
          ∃ p, ((df_fast.map (·.close)).getLastD none) = some p ∧ p ≤ 0))) ∧
    ((∃ iv, calculate_all ta cfg df_fast df_slow = .ok iv) ↔
      (¬ (df_fast.length < minRequired cfg ∨ df_slow.length < minRequired cfg) ∧
        ∃ p, ((df_fast.map (·.close)).getLastD none) = some p ∧ 0 < p)) := by
  unfold calculate_all
  dsimp only
  split_ifs with h1 h2
  · simp [h1]
  · simp [h1, h2]
  · cases hlc : (List.map (fun x => x.close) df_fast).getLastD none with
    | none =>
        simp [h1, h2, hlc]
    | some p =>
        dsimp only
        by_cases hp : p ≤ 0
        · rw [if_pos hp]
          simp [h1, h2, hp]
        · rw [if_neg hp]
          have hp2 : (0:ℚ) < p := not_le.1 hp
          simp [h1, h2, hp, hp2]

/-! ## Supporting lemmas for the indicator engine -/

lemma calculate_all_ok_inv (ta : TALib) (cfg : Settings) (df_fast df_slow : List FBar)
    (iv : IndicatorValues) (hok : calculate_all ta cfg df_fast df_slow = .ok iv) :
    ¬ df_fast.length < minRequired cfg ∧ ¬ df_slow.length < minRequired cfg ∧
    ∃ p : ℚ, ((df_fast.map (·.close)).getLastD none) = some p ∧ 0 < p ∧
      iv.current_price = p ∧
      iv.bollinger = get_bollinger_result ta cfg (df_fast.map (·.close)) p := by
  unfold calculate_all at hok
  dsimp only at hok
  split_ifs at hok with h1 h2
  rcases hlc : (List.map (fun x => x.close) df_fast).getLastD none with _ | p <;>
    rw [hlc] at hok
  · exact absurd hok (by simp)
  · dsimp only at hok
    by_cases hp : p ≤ 0
    · rw [if_pos hp] at hok
      exact absurd hok (by simp)
    · rw [if_neg hp] at hok
      refine ⟨h1, h2, p, hlc, not_le.1 hp, ?_, ?_⟩
      · rw [← congrArg IndicatorValues.current_price (Except.ok.inj hok)]
      · rw [← congrArg IndicatorValues.bollinger (Except.ok.inj hok)]

lemma calculate_all_ok_of (ta : TALib) (cfg : Settings) (df_fast df_slow : List FBar)
    (h1 : ¬ df_fast.length < minRequired cfg) (h2 : ¬ df_slow.length < minRequired cfg)
    (p : ℚ) (hp : ((df_fast.map (·.close)).getLastD none) = some p) (hp2 : 0 < p) :
    ∃ iv, calculate_all ta cfg df_fast df_slow = .ok iv := by
  unfold calculate_all
  dsimp only
  rw [if_neg h1, if_neg h2, hp]
  dsimp only
  rw [if_neg (not_le.2 hp2)]
  exact ⟨_, rfl⟩

lemma ratSqrt_nonneg (q : ℚ) : 0 ≤ ratSqrt q := by
  unfold ratSqrt
  positivity

lemma getLastD_range_map {α : Type} (f : ℕ → α) (n : ℕ) (hn : 0 < n) (d : α) :
    ((List.range n).map f).getLastD d = f (n - 1) := by
  obtain ⟨m, rfl⟩ : ∃ m, n = m + 1 := ⟨n - 1, by omega⟩
  rw [List.range_succ, List.map_append]
  simp

lemma allSome_of_all_isSome :
    ∀ (l : List FQ), l.all Option.isSome = true → ∃ xs : List ℚ, allSome l = some xs := by
  intro l
  induction l with
  | nil => exact fun _ => ⟨[], rfl⟩
  | cons a l ih =>
      intro h
      simp only [List.all_cons, Bool.and_eq_true] at h
      obtain ⟨x, rfl⟩ : ∃ x, a = some x := Option.isSome_iff_exists.1 h.1
      obtain ⟨xs, hxs⟩ := ih h.2
      exact ⟨x :: xs, by simp [allSome, hxs]⟩

lemma bbands_model_last (period : ℕ) (nbdev : ℚ) (close : List FQ)
    (hn : 0 < close.length) (hlen : period ≤ close.length)
    (hall : close.all Option.isSome = true) (hsd : 0 ≤ nbdev) :
    ∃ m d : ℚ, 0 ≤ d ∧
      (bbands_model period nbdev close).1.getLastD none = some (m + d) ∧
      (bbands_model period nbdev close).2.1.getLastD none = some m ∧
      (bbands_model period nbdev close).2.2.getLastD none = some (m - d) := by
  have hwall : (bbWindow period close (close.length - 1)).all Option.isSome = true := by
    simp only [List.all_eq_true] at hall ⊢
    intro x hx
    apply hall
    unfold bbWindow at hx
    exact List.mem_of_mem_take (List.mem_of_mem_drop hx)
  obtain ⟨xs, hxs⟩ := allSome_of_all_isSome _ hwall
  refine ⟨sma xs, nbdev * ratSqrt (popVar xs),
    mul_nonneg hsd (ratSqrt_nonneg _), ?_, ?_, ?_⟩ <;>
    · unfold bbands_model
      rw [getLastD_range_map _ _ hn]
      rw [if_pos (by omega)]
      unfold bbRow
      rw [hxs]

lemma bollinger_period_le_minRequired (cfg : Settings) :
    cfg.bollinger.period ≤ minRequired cfg := by
  unfold minRequired
  omega

lemma get_bollinger_result_model (ta : TALib) (cfg : Settings) (close : List FQ) (p : ℚ)
    (hBB : ta.BBANDS = fun cl period nbdev => bbands_model period nbdev cl)
    (hall : close.all Option.isSome = true)
    (hn : 0 < close.length) (hlen : cfg.bollinger.period ≤ close.length)
    (hsd : 0 ≤ cfg.bollinger.std_dev) :
    (fle (get_bollinger_result ta cfg close p).lower
      (get_bollinger_result ta cfg close p).middle = true) ∧
    (fle (get_bollinger_result ta cfg close p).middle
      (get_bollinger_result ta cfg close p).upper = true) ∧
    ((fle (get_bollinger_result ta cfg close p).lower (some p) = true ∧
      fle (some p) (get_bollinger_result ta cfg close p).upper = true) →
     (fle (some 0) (get_bollinger_result ta cfg close p).position = true ∧
      fle (get_bollinger_result ta cfg close p).position (some 1) = true)) := by
  obtain ⟨m, d, hd, hu, hm, hl⟩ :=
    bbands_model_last cfg.bollinger.period cfg.bollinger.std_dev close hn hlen hall hsd
  unfold get_bollinger_result calculate_bollinger
  rw [hBB]
  dsimp only
  rw [hu, hm, hl]
  refine ⟨by simp [fle]; linarith, by simp [fle]; linarith, ?_⟩
  rintro ⟨hlo, hhi⟩
  simp only [fle, decide_eq_true_eq] at hlo hhi
  simp only [fsub]
  by_cases hq : (m + d) - (m - d) = 0
  · rw [fne, if_neg (by simp [hq])]
    constructor <;> norm_num [fle]
  · rw [fne, if_pos (by simp only [ne_eq, decide_eq_true_eq]; exact hq)]
    have hd2 : 0 < (m + d) - (m - d) := by
      rcases lt_or_eq_of_le hd with h | h
      · linarith
      · exfalso; apply hq; linarith
    simp only [fdiv, if_neg hq, fle, decide_eq_true_eq]
    constructor
    · exact div_nonneg (by linarith) (le_of_lt hd2)
    · rw [div_le_one hd2]
      linarith

/-! ## Claim C5 -/

/-- C5 (amended).  For every snapshot successfully produced by
calculate_all from NaN-free fast closes, with the BBANDS oracle behaving as
the symmetric SMA ± nbdev·sd band model (nbdev ≥ 0): the current price is
strictly positive and the bands satisfy lower ≤ middle ≤ upper; the band
position lies in [0, 1] whenever the current price lies between the lower
and upper bands — but NOT merely whenever the band width is positive,
since the position is an unclamped ratio (`c5_position_false` exhibits a
successful snapshot with width 12/11 > 0 and position 5/4 > 1). -/
theorem c5_snapshot_invariants (ta : TALib) (cfg : Settings) (df_fast df_slow : List FBar)
    (iv : IndicatorValues)
    (hBB : ta.BBANDS = fun cl period nbdev => bbands_model period nbdev cl)
    (hsd : 0 ≤ cfg.bollinger.std_dev)
    (hall : (df_fast.map (·.close)).all Option.isSome = true)
    (hok : calculate_all ta cfg df_fast df_slow = .ok iv) :
    0 < iv.current_price ∧
    fle iv.bollinger.lower iv.bollinger.middle = true ∧
    fle iv.bollinger.middle iv.bollinger.upper = true ∧
    ((fle iv.bollinger.lower (some iv.current_price) = true ∧
      fle (some iv.current_price) iv.bollinger.upper = true) →
     (fle (some 0) iv.bollinger.position = true ∧
      fle iv.bollinger.position (some 1) = true)) := by
  obtain ⟨h1, h2, p, hlc, hp, hcp, hbb⟩ := calculate_all_ok_inv ta cfg df_fast df_slow iv hok
  have hlenF : minRequired cfg ≤ df_fast.length := not_lt.1 h1
  have hlen2 : cfg.bollinger.period ≤ (df_fast.map (·.close)).length := by
    rw [List.length_map]
    exact le_trans (bollinger_period_le_minRequired cfg) hlenF
  have hn : 0 < (df_fast.map (·.close)).length := by
    rw [List.length_map]
    have h10 : 10 ≤ minRequired cfg := by unfold minRequired; omega
    omega
  have hres := get_bollinger_result_model ta cfg (df_fast.map (·.close)) p hBB hall hn hlen2 hsd
  rw [hcp, hbb]
  exact ⟨hp, hres.1, hres.2.1, hres.2.2⟩

/-- Modelled from the spec: a TA-Lib oracle whose BBANDS is the symmetric
SMA ± nbdev·sd band model.  The other indicator outputs never influence
the Bollinger claims and are stubbed as empty arrays, on which
`safe_get_last` falls back to its documented defaults. -/
def talibModel : TALib where
  ATR := fun _ _ _ _ => []
  EMA := fun _ _ => []
  RSI := fun _ _ => []
  BBANDS := fun close period nbdev => bbands_model period nbdev close
  ADX := fun _ _ _ _ => []
  PLUS_DI := fun _ _ _ _ => []
  MINUS_DI := fun _ _ _ _ => []

/-- Sixty flat bars at price 1 (the default minimum history). -/
def dfOnes : List FBar := List.replicate 60 ⟨some 1, some 1, some 1⟩

/-- Witness for C5 on sixty flat bars: the snapshot is produced and all
invariant parts hold (degenerate bands, position 1/2). -/
theorem c5_snapshot_invariants_witness :
    ∃ iv, calculate_all talibModel defaultSettings dfOnes dfOnes = .ok iv ∧
      (0 < iv.current_price ∧
      fle iv.bollinger.lower iv.bollinger.middle = true ∧
      fle iv.bollinger.middle iv.bollinger.upper = true ∧
      ((fle iv.bollinger.lower (some iv.current_price) = true ∧
        fle (some iv.current_price) iv.bollinger.upper = true) →
       (fle (some 0) iv.bollinger.position = true ∧
        fle iv.bollinger.position (some 1) = true))) := by
  obtain ⟨iv, hok⟩ := calculate_all_ok_of talibModel defaultSettings dfOnes dfOnes
    (by with_unfolding_all decide) (by with_unfolding_all decide) 1
    (by with_unfolding_all decide) one_pos
  exact ⟨iv, hok,
    c5_snapshot_invariants talibModel defaultSettings dfOnes dfOnes iv rfl
      (by norm_num [defaultSettings]) (by with_unfolding_all decide) hok⟩

/-- Fifty-eight flat bars at 1 followed by two bars at 2: the final
20-bar window has mean 11/10 and standard deviation 3/10, so the upper
band 17/10 sits below the last close 2. -/
def dfBreak : List FBar :=
  List.replicate 58 ⟨some 1, some 1, some 1⟩ ++ List.replicate 2 ⟨some 2, some 2, some 2⟩

set_option maxRecDepth 8000 in
lemma c5_bb_concrete :
    get_bollinger_result talibModel defaultSettings (dfBreak.map (·.close)) 2 =
      ⟨some (17/10), some (11/10), some (1/2), some (12/11), some (5/4)⟩ := by
  with_unfolding_all decide

set_option maxRecDepth 8000 in
/-- C5 counterexample: calculate_all succeeds on `dfBreak`, the band width
is 12/11 > 0, yet the band position is 5/4 — outside [0, 1] — because the
last close lies above the upper band and the position is not clamped. -/
theorem c5_position_false :
    ∃ iv, calculate_all talibModel defaultSettings dfBreak dfBreak = .ok iv ∧
      iv.bollinger.width = some (12/11) ∧ flt (some 0) iv.bollinger.width = true ∧
      iv.bollinger.position = some (5/4) ∧ fle iv.bollinger.position (some 1) = false := by
  obtain ⟨iv, hok⟩ := calculate_all_ok_of talibModel defaultSettings dfBreak dfBreak
    (by with_unfolding_all decide) (by with_unfolding_all decide) 2
    (by with_unfolding_all decide) (by norm_num)
  obtain ⟨h1, h2, p, hlc, hp, hcp, hbb⟩ :=
    calculate_all_ok_inv talibModel defaultSettings dfBreak dfBreak iv hok
  have hlc2 : ((dfBreak.map (·.close)).getLastD none) = some 2 := by
    with_unfolding_all decide
  have hp2 : p = 2 := by
    rw [hlc] at hlc2
    exact Option.some.inj hlc2
  subst hp2
  rw [c5_bb_concrete] at hbb
  refine ⟨iv, hok, ?_, ?_, ?_, ?_⟩ <;>
    rw [hbb] <;> with_unfolding_all decide
